/-
  Verification of the goat BitTorrent tracker core.

  The Go sources are shallowly embedded: byte buffers become `List Nat`
  (each element a byte value), Go `int`/`int64` fields become `Int`,
  Go's `(value, error)` returns become pairs with `Option String`, and the
  panic/recover pattern used by the UDP packet parsers becomes explicit
  bounds checks that return the recovered error value.  Store interaction
  (loads and fire-and-forget saves) is made explicit: loads are parameters
  of the engine functions, saves appear in an outcome record.
-/
import Mathlib

/-- Go slice expression `buf[lo:hi]` on a byte buffer.  (In Go the slice
panics when `hi > len(buf)`; callers model that panic separately.) -/
def goSlice (lo hi : Nat) (l : List Nat) : List Nat :=
  (l.drop lo).take (hi - lo)

/-- Big-endian interpretation of a byte list (`binary.BigEndian.UintNN`). -/
def beNat (l : List Nat) : Nat :=
  l.foldl (fun acc b => acc * 256 + b) 0

/-- Big-endian 4-byte encoding of a 32-bit value (`binary.Write` of a uint32). -/
def be32 (n : Nat) : List Nat :=
  [n / 2 ^ 24 % 256, n / 2 ^ 16 % 256, n / 2 ^ 8 % 256, n % 256]

/-- Go conversion `uint32(x)` from a signed integer: reduction mod 2^32. -/
def u32ofInt (x : Int) : Nat :=
  (Int.emod x (2 ^ 32)).toNat

/-- Bytes of an ASCII string (`[]byte(s)` for the ASCII literals the tracker uses). -/
def strBytes (s : String) : List Nat :=
  s.toList.map Char.toNat

/-- Decimal digit value of a character, if it is one. -/
def digitVal (c : Char) : Option Nat :=
  if 48 ≤ c.toNat ∧ c.toNat ≤ 57 then some (c.toNat - 48) else none

/-- Value of a non-empty all-digit character list. -/
def digitsVal (l : List Char) : Option Nat :=
  if l = [] then none
  else l.foldl (fun acc c =>
    match acc, digitVal c with
    | some a, some d => some (a * 10 + d)
    | _, _ => none) (some 0)

/-- Go `strconv.Atoi`: optional sign then decimal digits, anything else is an
error (modelled as `none`).  The 64-bit range check is omitted; no claim
involves inputs outside that range. -/
def atoi (s : String) : Option Int :=
  match s.toList with
  | [] => none
  | c :: rest =>
    if c = '-' then (digitsVal rest).map (fun n => -(n : Int))
    else if c = '+' then (digitsVal rest).map (fun n => (n : Int))
    else (digitsVal (c :: rest)).map (fun n => (n : Int))

/-- Hex digit value of a character, if it is one. -/
def hexDigit (c : Char) : Option Nat :=
  if 48 ≤ c.toNat ∧ c.toNat ≤ 57 then some (c.toNat - 48)
  else if 97 ≤ c.toNat ∧ c.toNat ≤ 102 then some (c.toNat - 87)
  else if 65 ≤ c.toNat ∧ c.toNat ≤ 70 then some (c.toNat - 55)
  else none

/-- Byte list of an even-length hex character list, `none` on a bad digit or
odd length (Go `hex.DecodeString` returning an error). -/
def hexDecodeList : List Char → Option (List Nat)
  | [] => some []
  | [_] => none
  | a :: b :: rest =>
    match hexDigit a, hexDigit b, hexDecodeList rest with
    | some x, some y, some t => some ((x * 16 + y) :: t)
    | _, _, _ => none

/-- Go `hex.DecodeString` as used by `httpTrackerScrape`: on error the code
substitutes the empty byte string. -/
def hexDecode (s : String) : List Nat :=
  (hexDecodeList s.toList).getD []

/-- Modelled from the spec: `randRange(min, max)` draws a random integer in
the inclusive range `[min, max]`.  The function itself is not under `src/`;
the randomness source is made explicit through a seed parameter, and the
draw is `min + seed % (max - min + 1)`. -/
def randRange (lo hi : Int) (seed : Nat) : Int :=
  lo + (seed : Int) % (hi - lo + 1)

namespace bencode

/-- Modelled from the spec: bencode integer encoding, `i<d>e`.  The bencode
library is external to `src/`. -/
def EncInt (n : Int) : List Nat :=
  strBytes ("i" ++ toString n ++ "e")

/-- Modelled from the spec: bencode byte-string encoding, `<len>:<bytes>`. -/
def EncBytes (b : List Nat) : List Nat :=
  strBytes (toString b.length) ++ [58] ++ b

/-- Modelled from the spec: bencode encoding of an ASCII string. -/
def EncString (s : String) : List Nat :=
  EncBytes (strBytes s)

/-- Insertion of a key/value pair into a key-sorted association list. -/
def insertKey (kv : String × List Nat) : List (String × List Nat) → List (String × List Nat)
  | [] => [kv]
  | x :: xs => if kv.1 ≤ x.1 then kv :: x :: xs else x :: insertKey kv xs

/-- Insertion sort of an association list by key. -/
def sortKeys : List (String × List Nat) → List (String × List Nat)
  | [] => []
  | x :: xs => insertKey x (sortKeys xs)

/-- Modelled from the spec: bencode dictionary encoding `d…e` with keys
serialized in lexicographic order. -/
def EncDictMap (m : List (String × List Nat)) : List Nat :=
  100 :: (sortKeys m).foldr (fun kv acc => EncString kv.1 ++ kv.2 ++ acc) [101]

end bencode

/-- The fields of `userRecord` read by the tracker engines. -/
structure userRecord where
  ID : Nat
deriving Repr, DecidableEq

/-- The fields of `fileRecord` read and written by the tracker engines. -/
structure fileRecord where
  ID : Nat
  InfoHash : String
  Verified : Bool
deriving Repr, DecidableEq

/-- The fields of `announceLog` (built by `FromMap`) that `trackerAnnounce`
reads. -/
structure announceLog where
  InfoHash : String
  IP : String
  Port : Int
  Event : String
  UDP : Bool
  Uploaded : Int
  Downloaded : Int
  Left : Int
deriving Repr, DecidableEq

/-- The zero value `announceLog{}` compared against after `FromMap`. -/
def announceLog.empty : announceLog :=
  { InfoHash := "", IP := "", Port := 0, Event := "", UDP := false,
    Uploaded := 0, Downloaded := 0, Left := 0 }

/-- The fields of `scrapeLog` that `trackerScrape` reads. -/
structure scrapeLog where
  InfoHash : String
  IP : String
deriving Repr, DecidableEq

/-- The zero value `scrapeLog{}` compared against after `FromMap`. -/
def scrapeLog.empty : scrapeLog := { InfoHash := "", IP := "" }

/-- `fileUserRecord`: one peer participation of a user in a swarm. -/
structure fileUserRecord where
  FileID : Nat
  UserID : Nat
  IP : String
  Active : Bool
  Completed : Bool
  Announced : Int
  Uploaded : Int
  Downloaded : Int
  Left : Int
deriving Repr, DecidableEq

/-- The ambient state a request handler sees: the configured steady-state
interval (`static.Config.Interval`), the randomness seed consumed by
`randRange`, and the store's per-file views (`file.Seeders()`,
`file.Leechers()`, `file.Completed()`, `file.PeerList(ip, numwant)`). -/
structure trackerEnv where
  interval : Int
  seed : Nat
  seeders : Int
  leechers : Int
  completedCount : Int
  peerList : String → Int → List Nat

/-- Result of `trackerAnnounce`: the bytes sent on `resChan`, plus the
fire-and-forget store writes (`file.Save()` and `fileUser.Save()`). -/
structure announceOutcome where
  response : List Nat
  savedFile : Option fileRecord
  savedFileUser : Option fileUserRecord

/-- Result of `trackerScrape`: the bytes sent on `resChan`, plus any
fire-and-forget file write (the scrape path performs none). -/
structure scrapeOutcome where
  response : List Nat
  savedFile : Option fileRecord

/-- `httpTrackerError`: bencoded failure document with the error string under
`failure reason` plus the steady-state interval fields. -/
def httpTrackerError (env : trackerEnv) (err : String) : List Nat :=
  bencode.EncDictMap
    [("failure reason", bencode.EncString err),
     ("interval", bencode.EncInt (randRange (env.interval - 600) env.interval env.seed)),
     ("min interval", bencode.EncInt (Int.tdiv env.interval 2))]

/-- `udpTrackerError`: packed datagram `action=3, transaction id, message`.
(`binary.Write` of a `[]byte` writes the raw bytes; the write-error branches
on a `bytes.Buffer` are dead code and not modelled.) -/
def udpTrackerError (msg : String) (transID : List Nat) : List Nat :=
  be32 3 ++ transID ++ strBytes msg

/-- The response map `res` built by `httpTrackerAnnounce`, keyed exactly as in
the source; the query map is a partial lookup function (Go map indexing on a
missing key yields the empty string). -/
def httpTrackerAnnounceMap (env : trackerEnv) (query : String → Option String)
    (fileUser : fileUserRecord) : List (String × List Nat) :=
  let res := [("complete", bencode.EncInt env.seeders),
              ("incomplete", bencode.EncInt env.leechers)]
  let res := if fileUser.Completed = false then
      res ++ [("interval", bencode.EncInt (randRange 300 600 env.seed)),
              ("min interval", bencode.EncInt 300)]
    else
      res ++ [("interval", bencode.EncInt (randRange (env.interval - 600) env.interval env.seed)),
              ("min interval", bencode.EncInt (Int.tdiv env.interval 2))]
  let numwant : Int :=
    match query "numwant" with
    | some s => match atoi s with
      | some num => num
      | none => 50
    | none => 50
  res ++ [("peers", bencode.EncBytes (env.peerList ((query "ip").getD "") numwant))]

/-- `httpTrackerAnnounce`: the bencoded successful announce response. -/
def httpTrackerAnnounce (env : trackerEnv) (query : String → Option String)
    (fileUser : fileUserRecord) : List Nat :=
  bencode.EncDictMap (httpTrackerAnnounceMap env query fileUser)

/-- `httpTrackerScrape`: the bencoded scrape response for a verified file. -/
def httpTrackerScrape (env : trackerEnv) (file : fileRecord) : List Nat :=
  bencode.EncDictMap
    [("files", bencode.EncBytes (hexDecode file.InfoHash)),
     ("complete", bencode.EncInt env.seeders),
     ("downloaded", bencode.EncInt env.completedCount),
     ("incomplete", bencode.EncInt env.leechers)]

/-- `udpTrackerAnnounce`: packed datagram `action=1, transaction id, interval,
leechers, seeders, peer list`.  `strconv.Atoi` on the `numwant` query value
fails on a missing or non-numeric value, in which case the function returns the
UDP error packet instead (the partial buffer writes preceding the failure are
discarded). -/
def udpTrackerAnnounce (env : trackerEnv) (query : String → Option String)
    (transID : List Nat) : List Nat :=
  match atoi ((query "numwant").getD "") with
  | none => udpTrackerError "Could not create UDP announce response" transID
  | some numwant =>
    be32 1 ++ transID ++
    be32 (u32ofInt (randRange (env.interval - 600) env.interval env.seed)) ++
    be32 (u32ofInt env.leechers) ++ be32 (u32ofInt env.seeders) ++
    env.peerList ((query "ip").getD "") numwant

/-- The fresh `fileUserRecord` built by `trackerAnnounce` when no record
exists for `(file, user, ip)` (lines 119-138 of the announce handler). -/
def fileUserCreate (user : userRecord) (file : fileRecord) (announce : announceLog)
    (ip : String) : fileUserRecord :=
  { FileID := file.ID, UserID := user.ID, IP := ip, Active := true, Announced := 1,
    Completed := decide (announce.Left = 0),
    Uploaded := announce.Uploaded, Downloaded := announce.Downloaded,
    Left := announce.Left }

/-- The update `trackerAnnounce` applies to a pre-existing `fileUserRecord`
(lines 139-176 of the announce handler). -/
def fileUserUpdate (announce : announceLog) (prior : fileUserRecord) : fileUserRecord :=
  { prior with
    Active := decide (announce.Event ≠ "stopped"),
    Completed := decide (announce.Event = "completed" ∨ announce.Left = 0),
    Announced := prior.Announced + 1,
    Uploaded := if announce.Uploaded > prior.Uploaded then announce.Uploaded else prior.Uploaded,
    Downloaded := if announce.Downloaded > prior.Downloaded then announce.Downloaded else prior.Downloaded,
    Left := if announce.Left < prior.Left then announce.Left else prior.Left }

/-- `trackerAnnounce`: the announce engine.  The store loads are parameters:
`loadedFile` is `new(fileRecord).Load(info_hash)` (`none` for the zero record)
and `loadedFileUser` is `new(fileUserRecord).Load(file.ID, user.ID, ip)`
(read only on the HTTP path, exactly as in the source). -/
def trackerAnnounce (env : trackerEnv) (user : userRecord) (announce : announceLog)
    (query : String → Option String) (transID : List Nat)
    (loadedFile : Option fileRecord) (loadedFileUser : Option fileUserRecord) :
    announceOutcome :=
  if announce = announceLog.empty then
    { response := httpTrackerError env "Malformed announce",
      savedFile := none, savedFileUser := none }
  else
    match loadedFile with
    | none =>
      { response :=
          if announce.UDP = false then httpTrackerError env "Unregistered torrent"
          else udpTrackerError "Unregistered torrent" transID,
        savedFile := some { ID := 0, InfoHash := announce.InfoHash, Verified := false },
        savedFileUser := none }
    | some file =>
      if file.Verified = false then
        { response :=
            if announce.UDP = false then httpTrackerError env "Unverified torrent"
            else udpTrackerError "Unverified torrent" transID,
          savedFile := none, savedFileUser := none }
      else if announce.UDP = true then
        { response := udpTrackerAnnounce env query transID,
          savedFile := none, savedFileUser := none }
      else
        let fileUser :=
          match loadedFileUser with
          | none => fileUserCreate user file announce ((query "ip").getD "")
          | some prior => fileUserUpdate announce prior
        { response := httpTrackerAnnounce env query fileUser,
          savedFile := none, savedFileUser := some fileUser }

/-- `trackerScrape`: the scrape engine.  `loadedFile` is the store lookup by
`info_hash` (`none` for the zero record). -/
def trackerScrape (env : trackerEnv) (scrape : scrapeLog)
    (loadedFile : Option fileRecord) : scrapeOutcome :=
  if scrape = scrapeLog.empty then
    { response := httpTrackerError env "Malformed scrape", savedFile := none }
  else
    match loadedFile with
    | none =>
      { response := httpTrackerError env "Unregistered torrent", savedFile := none }
    | some file =>
      if file.Verified = false then
        { response := httpTrackerError env "Unverified torrent", savedFile := none }
      else
        { response := httpTrackerScrape env file, savedFile := none }

/-- `udpPacket`: the basic values of a UDP tracker connection. -/
structure udpPacket where
  ConnID : Nat
  Action : Nat
  TransID : List Nat
deriving Repr, DecidableEq

/-- The zero value `udpPacket{}` produced by the recover handler. -/
def udpPacket.zero : udpPacket := { ConnID := 0, Action := 0, TransID := [] }

/-- `udpPacket.FromBytes`.  The source slices `buf[0:8]`, `buf[8:12]`,
`buf[12:16]`; the recover handler fires exactly when some slice bound
exceeds the buffer, i.e. when the buffer is shorter than 16 bytes, and then
returns the zero packet with the recovered error. -/
def udpPacket.FromBytes (buf : List Nat) : udpPacket × Option String :=
  if buf.length < 16 then
    (udpPacket.zero, some "failed to create udpPacket from bytes")
  else
    ({ ConnID := beNat (goSlice 0 8 buf), Action := beNat (goSlice 8 12 buf),
       TransID := goSlice 12 16 buf }, none)

/-- `udpAnnouncePacket`: a tracker announce in the UDP format.  `InfoHash`
and `PeerID` are raw byte strings and `Key` a 4-byte field (hex-encoded by
the source; the bytes are kept here). -/
structure udpAnnouncePacket where
  InfoHash : List Nat
  PeerID : List Nat
  Downloaded : Nat
  Left : Nat
  Uploaded : Nat
  Event : Nat
  IP : Nat
  Key : List Nat
  Numwant : Nat
  Port : Nat
deriving Repr, DecidableEq

/-- The zero value `udpAnnouncePacket{}`. -/
def udpAnnouncePacket.zero : udpAnnouncePacket :=
  { InfoHash := [], PeerID := [], Downloaded := 0, Left := 0, Uploaded := 0,
    Event := 0, IP := 0, Key := [], Numwant := 0, Port := 0 }

/-- Modelled from the spec: the package-level error value `errUDPInteger`
returned for integer fields out of `strconv.ParseInt` range; its definition
is not under `src/`, only its identity matters here. -/
def errUDPInteger : String := "errUDPInteger"

/-- `udpAnnouncePacket.FromBytes`.  The source interleaves slicing with
integer parsing: slices at `[16:36]`, `[36:56]`, `[56:64]` (a panic on any is
the same recover error, so these collapse into one length guard), then
`ParseInt(hex, 16, 64)` on `downloaded` which returns `errUDPInteger` from
`2^63` upward, then the `[64:72]` slice, and so on — so a buffer long enough
for an early field but short of a later one fails with `errUDPInteger` or
the recover error depending on which check is reached first.  The 4-byte
`event` and `ip` fields use bit size 32 and fail from `2^31` upward; the
`[88:92]` key and `[92:96]` numwant slices collapse into one guard;
`numwant` equal to `ffffffff` defaults to 50; the 2-byte `port` cannot
exceed its bit size. -/
def udpAnnouncePacket.FromBytes (buf : List Nat) : udpAnnouncePacket × Option String :=
  if buf.length < 64 then
    (udpAnnouncePacket.zero, some "failed to create udpAnnouncePacket from bytes")
  else if 2 ^ 63 ≤ beNat (goSlice 56 64 buf) then
    (udpAnnouncePacket.zero, some errUDPInteger)
  else if buf.length < 72 then
    (udpAnnouncePacket.zero, some "failed to create udpAnnouncePacket from bytes")
  else if 2 ^ 63 ≤ beNat (goSlice 64 72 buf) then
    (udpAnnouncePacket.zero, some errUDPInteger)
  else if buf.length < 80 then
    (udpAnnouncePacket.zero, some "failed to create udpAnnouncePacket from bytes")
  else if 2 ^ 63 ≤ beNat (goSlice 72 80 buf) then
    (udpAnnouncePacket.zero, some errUDPInteger)
  else if buf.length < 84 then
    (udpAnnouncePacket.zero, some "failed to create udpAnnouncePacket from bytes")
  else if 2 ^ 31 ≤ beNat (goSlice 80 84 buf) then
    (udpAnnouncePacket.zero, some errUDPInteger)
  else if buf.length < 88 then
    (udpAnnouncePacket.zero, some "failed to create udpAnnouncePacket from bytes")
  else if 2 ^ 31 ≤ beNat (goSlice 84 88 buf) then
    (udpAnnouncePacket.zero, some errUDPInteger)
  else if buf.length < 96 then
    (udpAnnouncePacket.zero, some "failed to create udpAnnouncePacket from bytes")
  else if goSlice 92 96 buf ≠ [255, 255, 255, 255] ∧ 2 ^ 31 ≤ beNat (goSlice 92 96 buf) then
    (udpAnnouncePacket.zero, some errUDPInteger)
  else if buf.length < 98 then
    (udpAnnouncePacket.zero, some "failed to create udpAnnouncePacket from bytes")
  else
    ({ InfoHash := goSlice 16 36 buf, PeerID := goSlice 36 56 buf,
       Downloaded := beNat (goSlice 56 64 buf), Left := beNat (goSlice 64 72 buf),
       Uploaded := beNat (goSlice 72 80 buf), Event := beNat (goSlice 80 84 buf),
       IP := beNat (goSlice 84 88 buf), Key := goSlice 88 92 buf,
       Numwant := if goSlice 92 96 buf = [255, 255, 255, 255] then 50
                  else beNat (goSlice 92 96 buf),
       Port := beNat (goSlice 96 98 buf) }, none)

/-- Modelled from the spec: a compact peer, 4 bytes of IPv4 followed by a
2-byte big-endian port. -/
structure compactPeer where
  IP : List Nat
  Port : Nat
deriving Repr, DecidableEq

/-- Modelled from the spec: `b2ip` unpacks a 6-byte compact peer; the helper
itself is not under `src/`. -/
def b2ip (b : List Nat) : compactPeer :=
  { IP := b.take 4, Port := beNat (b.drop 4) }

/-- `udpAnnounceResponsePacket`: a tracker announce response in UDP format. -/
structure udpAnnounceResponsePacket where
  Action : Nat
  TransID : List Nat
  Interval : Nat
  Leechers : Nat
  Seeders : Nat
  PeerList : List compactPeer
deriving Repr, DecidableEq

/-- The zero value `udpAnnounceResponsePacket{}`. -/
def udpAnnounceResponsePacket.zero : udpAnnounceResponsePacket :=
  { Action := 0, TransID := [], Interval := 0, Leechers := 0, Seeders := 0,
    PeerList := [] }

/-- The peer-list loop of `udpAnnounceResponsePacket.FromBytes`: from offset
20, stop once the offset reaches the end, otherwise slice 6 bytes (a slice
past the end panics, recovered into the error below). -/
def respPeersLoop (buf : List Nat) (i : Nat) : List compactPeer × Option String :=
  if buf.length ≤ i then ([], none)
  else if i + 6 ≤ buf.length then
    match respPeersLoop buf (i + 6) with
    | (ps, none) => (b2ip (goSlice i (i + 6) buf) :: ps, none)
    | (_, some e) => ([], some e)
  else ([], some "failed to create udpAnnounceResponsePacket from bytes")
termination_by buf.length - i
decreasing_by simp_wf; omega

/-- `udpAnnounceResponsePacket.FromBytes`.  Header slices have bounds up to
20; the peer loop then walks the remainder in 6-byte steps. -/
def udpAnnounceResponsePacket.FromBytes (buf : List Nat) :
    udpAnnounceResponsePacket × Option String :=
  if buf.length < 20 then
    (udpAnnounceResponsePacket.zero,
     some "failed to create udpAnnounceResponsePacket from bytes")
  else
    match respPeersLoop buf 20 with
    | (ps, none) =>
      ({ Action := beNat (goSlice 0 4 buf), TransID := goSlice 4 8 buf,
         Interval := beNat (goSlice 8 12 buf),
         Leechers := beNat (goSlice 12 16 buf),
         Seeders := beNat (goSlice 16 20 buf), PeerList := ps }, none)
    | (_, some e) => (udpAnnounceResponsePacket.zero, some e)

/-- `udpScrapePacket`: a tracker scrape in the UDP format; each info-hash is
a 20-byte string, kept here as raw bytes. -/
structure udpScrapePacket where
  InfoHashes : List (List Nat)
deriving Repr, DecidableEq

/-- The recovered error of `udpScrapePacket.FromBytes`. -/
def scrapeFailMsg : String := "failed to create udpScrapePacket from bytes"

/-- The info-hash loop of `udpScrapePacket.FromBytes`: offsets 16, 36, …, one
per fuel unit (70 in total, mirroring `i < 16+70*20`).  Indexing `buf[i]`
past the end panics (recovered: zero packet plus error); a leading zero byte
ends the list; otherwise the 20-byte slice is appended (a slice past the end
also panics). -/
def scrapeCollect (buf : List Nat) : Nat → Nat → List (List Nat) →
    List (List Nat) × Option String
  | _, 0, acc => (acc, none)
  | i, fuel + 1, acc =>
    match buf[i]? with
    | none => ([], some scrapeFailMsg)
    | some b =>
      if b = 0 then (acc, none)
      else if i + 20 ≤ buf.length then
        scrapeCollect buf (i + 20) fuel (acc ++ [goSlice i (i + 20) buf])
      else ([], some scrapeFailMsg)

/-- `udpScrapePacket.FromBytes`: run the info-hash loop from offset 16 with
room for 70 hashes. -/
def udpScrapePacket.FromBytes (buf : List Nat) : udpScrapePacket × Option String :=
  match scrapeCollect buf 16 70 [] with
  | (hs, none) => ({ InfoHashes := hs }, none)
  | (_, some e) => ({ InfoHashes := [] }, some e)

/-- `randRange` lands in the inclusive range when the bounds are ordered. -/
theorem randRange_bounds (lo hi : Int) (s : Nat) (h : lo ≤ hi) :
    lo ≤ randRange lo hi s ∧ randRange lo hi s ≤ hi := by
  unfold randRange
  have hne : hi - lo + 1 ≠ 0 := by omega
  have h1 := Int.emod_nonneg (s : Int) hne
  have h2 := Int.emod_lt_of_pos (s : Int) (by omega : (0 : Int) < hi - lo + 1)
  omega

/-- C1 (amended): for an HTTP announce on a verified torrent updating an
existing record, the stored record is `fileUserUpdate` of the prior record,
whose completed flag equals `event == "completed" OR reported left == 0` —
the prior completed flag is not consulted, so completion is recomputed on
every announce rather than latched. -/
theorem announce_update_completed_c1 (env : trackerEnv) (user : userRecord)
    (announce : announceLog) (query : String → Option String) (transID : List Nat)
    (file : fileRecord) (prior : fileUserRecord)
    (hm : announce ≠ announceLog.empty) (hhttp : announce.UDP = false)
    (hv : file.Verified = true) :
    (trackerAnnounce env user announce query transID (some file) (some prior)).savedFileUser
        = some (fileUserUpdate announce prior) ∧
    (fileUserUpdate announce prior).Completed
        = decide (announce.Event = "completed" ∨ announce.Left = 0) := by
  constructor
  · simp [trackerAnnounce, hm, hv, hhttp]
  · rfl

/-- Concrete environment used by the counterexamples and witnesses. -/
def cEnv : trackerEnv :=
  { interval := 3600, seed := 0, seeders := 1, leechers := 1, completedCount := 1,
    peerList := fun _ _ => [] }

/-- A verified file used by the counterexamples and witnesses. -/
def cFile : fileRecord := { ID := 7, InfoHash := "abc", Verified := true }

/-- An announce reporting neither `completed` nor `left == 0`. -/
def c1Announce : announceLog :=
  { InfoHash := "abc", IP := "1.2.3.4", Port := 6881, Event := "", UDP := false,
    Uploaded := 10, Downloaded := 10, Left := 5000 }

/-- A prior record that has already completed the torrent. -/
def c1Prior : fileUserRecord :=
  { FileID := 7, UserID := 3, IP := "1.2.3.4", Active := true, Completed := true,
    Announced := 5, Uploaded := 10, Downloaded := 10, Left := 0 }

/-- C1 counterexample: the prior record is completed, the new announce has a
plain event and nonzero reported left, and the updated record's completed
flag is `false` — the claimed `prior OR …` latch does not hold. -/
theorem announce_completed_not_latched_c1 :
    c1Prior.Completed = true ∧ c1Announce.Event ≠ "completed" ∧ c1Announce.Left ≠ 0 ∧
    (trackerAnnounce cEnv { ID := 3 } c1Announce (fun _ => none) [] (some cFile)
        (some c1Prior)).savedFileUser = some (fileUserUpdate c1Announce c1Prior) ∧
    (fileUserUpdate c1Announce c1Prior).Completed = false := by
  exact ⟨rfl, by decide, by decide, rfl, by decide⟩

/-- C1 witness. -/
theorem announce_update_completed_c1_witness :
    c1Announce ≠ announceLog.empty ∧ c1Announce.UDP = false ∧ cFile.Verified = true ∧
    ((trackerAnnounce cEnv { ID := 3 } c1Announce (fun _ => none) [] (some cFile)
        (some c1Prior)).savedFileUser = some (fileUserUpdate c1Announce c1Prior) ∧
     (fileUserUpdate c1Announce c1Prior).Completed
        = decide (c1Announce.Event = "completed" ∨ c1Announce.Left = 0)) :=
  ⟨by decide, rfl, rfl,
   announce_update_completed_c1 cEnv { ID := 3 } c1Announce (fun _ => none) []
     cFile c1Prior (by decide) rfl rfl⟩

/-- C2: for an HTTP announce on a verified torrent updating an existing
record, the stored statistics are the monotone merges
`uploaded = max(prior, reported)`, `downloaded = max(prior, reported)`,
`left = min(prior, reported)`; in particular uploaded and downloaded never
decrease and left never increases. -/
theorem announce_monotone_merge_c2 (env : trackerEnv) (user : userRecord)
    (announce : announceLog) (query : String → Option String) (transID : List Nat)
    (file : fileRecord) (prior : fileUserRecord)
    (hm : announce ≠ announceLog.empty) (hhttp : announce.UDP = false)
    (hv : file.Verified = true) :
    (trackerAnnounce env user announce query transID (some file) (some prior)).savedFileUser
        = some (fileUserUpdate announce prior) ∧
    (fileUserUpdate announce prior).Uploaded = max prior.Uploaded announce.Uploaded ∧
    (fileUserUpdate announce prior).Downloaded = max prior.Downloaded announce.Downloaded ∧
    (fileUserUpdate announce prior).Left = min prior.Left announce.Left ∧
    prior.Uploaded ≤ (fileUserUpdate announce prior).Uploaded ∧
    prior.Downloaded ≤ (fileUserUpdate announce prior).Downloaded ∧
    (fileUserUpdate announce prior).Left ≤ prior.Left := by
  refine ⟨by simp [trackerAnnounce, hm, hv, hhttp], ?_, ?_, ?_, ?_, ?_, ?_⟩ <;>
    simp only [fileUserUpdate] <;> split <;> omega

/-- C2 witness. -/
theorem announce_monotone_merge_c2_witness :
    c1Announce ≠ announceLog.empty ∧ c1Announce.UDP = false ∧ cFile.Verified = true ∧
    (fileUserUpdate c1Announce c1Prior).Left = min c1Prior.Left c1Announce.Left :=
  ⟨by decide, rfl, rfl,
   (announce_monotone_merge_c2 cEnv { ID := 3 } c1Announce (fun _ => none) []
     cFile c1Prior (by decide) rfl rfl).2.2.2.1⟩

/-- A fresh announce carrying the `stopped` event. -/
def c3Announce : announceLog :=
  { InfoHash := "abc", IP := "1.2.3.4", Port := 6881, Event := "stopped", UDP := false,
    Uploaded := 0, Downloaded := 0, Left := 100 }

/-- C3 counterexample: an HTTP announce with `event = stopped` on a verified
torrent with no existing record creates the record with `active = true` —
the fresh-record branch sets `Active` unconditionally and never looks at the
event, so the claimed `active == false` does not hold. -/
theorem announce_fresh_stopped_active_c3 :
    c3Announce.Event = "stopped" ∧
    (trackerAnnounce cEnv { ID := 3 } c3Announce (fun _ => none) [] (some cFile)
        none).savedFileUser = some (fileUserCreate { ID := 3 } cFile c3Announce "") ∧
    (fileUserCreate { ID := 3 } cFile c3Announce "").Active = true := by
  exact ⟨rfl, rfl, rfl⟩

/-- C3 (amended): for an HTTP announce on a verified torrent with no existing
record, the created record always has `active = true` (whatever the event,
`stopped` included), `announced = 1`, `completed = (reported left == 0)`, and
the reported statistics stored verbatim. -/
theorem announce_fresh_record_c3 (env : trackerEnv) (user : userRecord)
    (announce : announceLog) (query : String → Option String) (transID : List Nat)
    (file : fileRecord)
    (hm : announce ≠ announceLog.empty) (hhttp : announce.UDP = false)
    (hv : file.Verified = true) :
    (trackerAnnounce env user announce query transID (some file) none).savedFileUser
        = some (fileUserCreate user file announce ((query "ip").getD "")) ∧
    (fileUserCreate user file announce ((query "ip").getD "")).Active = true ∧
    (fileUserCreate user file announce ((query "ip").getD "")).Announced = 1 ∧
    (fileUserCreate user file announce ((query "ip").getD "")).Completed
        = decide (announce.Left = 0) ∧
    (fileUserCreate user file announce ((query "ip").getD "")).Uploaded
        = announce.Uploaded ∧
    (fileUserCreate user file announce ((query "ip").getD "")).Left = announce.Left := by
  exact ⟨by simp [trackerAnnounce, hm, hv, hhttp], rfl, rfl, rfl, rfl, rfl⟩

/-- C3 witness. -/
theorem announce_fresh_record_c3_witness :
    c3Announce ≠ announceLog.empty ∧ c3Announce.UDP = false ∧ cFile.Verified = true ∧
    (trackerAnnounce cEnv { ID := 3 } c3Announce (fun _ => none) [] (some cFile)
        none).savedFileUser
      = some (fileUserCreate { ID := 3 } cFile c3Announce (((fun _ => none : String → Option String) "ip").getD "")) :=
  ⟨by decide, rfl, rfl,
   (announce_fresh_record_c3 cEnv { ID := 3 } c3Announce (fun _ => none) [] cFile
     (by decide) rfl rfl).1⟩

/-- C4: an announce (HTTP or UDP) whose info-hash matches no file responds
with the "Unregistered torrent" error — the bencoded failure document over
HTTP, the `action = 3` datagram echoing the request's transaction id over
UDP — and saves a file row carrying that info-hash with `verified = false`. -/
theorem announce_unregistered_c4 (env : trackerEnv) (user : userRecord)
    (announce : announceLog) (query : String → Option String) (transID : List Nat)
    (loadedFileUser : Option fileUserRecord)
    (hm : announce ≠ announceLog.empty) :
    (trackerAnnounce env user announce query transID none loadedFileUser).savedFile
        = some { ID := 0, InfoHash := announce.InfoHash, Verified := false } ∧
    (trackerAnnounce env user announce query transID none loadedFileUser).savedFileUser
        = none ∧
    (announce.UDP = false →
      (trackerAnnounce env user announce query transID none loadedFileUser).response
          = httpTrackerError env "Unregistered torrent") ∧
    (announce.UDP = true →
      (trackerAnnounce env user announce query transID none loadedFileUser).response
          = be32 3 ++ transID ++ strBytes "Unregistered torrent") := by
  refine ⟨by simp [trackerAnnounce, hm], by simp [trackerAnnounce, hm], ?_, ?_⟩ <;>
    intro h <;> simp [trackerAnnounce, hm, h, udpTrackerError]

/-- A UDP announce for an unknown info-hash. -/
def c4Announce : announceLog :=
  { InfoHash := "feed", IP := "1.2.3.4", Port := 6881, Event := "", UDP := true,
    Uploaded := 0, Downloaded := 0, Left := 100 }

/-- C4 witness. -/
theorem announce_unregistered_c4_witness :
    c4Announce ≠ announceLog.empty ∧
    (c4Announce.UDP = true →
      (trackerAnnounce cEnv { ID := 3 } c4Announce (fun _ => none) [1, 2, 3, 4] none
          none).response = be32 3 ++ [1, 2, 3, 4] ++ strBytes "Unregistered torrent") :=
  ⟨by decide,
   (announce_unregistered_c4 cEnv { ID := 3 } c4Announce (fun _ => none) [1, 2, 3, 4]
     none (by decide)).2.2.2⟩

/-- C5: a UDP announce on a verified torrent answers with the anonymous UDP
response composed from the store's per-file views, stores nothing, and its
outcome does not depend on any loaded `fileUserRecord`. -/
theorem announce_udp_anonymous_c5 (env : trackerEnv) (user : userRecord)
    (announce : announceLog) (query : String → Option String) (transID : List Nat)
    (file : fileRecord) (fu1 fu2 : Option fileUserRecord)
    (hm : announce ≠ announceLog.empty) (hudp : announce.UDP = true)
    (hv : file.Verified = true) :
    (trackerAnnounce env user announce query transID (some file) fu1).response
        = udpTrackerAnnounce env query transID ∧
    (trackerAnnounce env user announce query transID (some file) fu1).savedFileUser
        = none ∧
    (trackerAnnounce env user announce query transID (some file) fu1).savedFile
        = none ∧
    trackerAnnounce env user announce query transID (some file) fu1
        = trackerAnnounce env user announce query transID (some file) fu2 := by
  refine ⟨?_, ?_, ?_, ?_⟩ <;> simp [trackerAnnounce, hm, hv, hudp]

/-- A UDP announce for a verified torrent. -/
def c5Announce : announceLog :=
  { InfoHash := "abc", IP := "1.2.3.4", Port := 6881, Event := "", UDP := true,
    Uploaded := 0, Downloaded := 0, Left := 100 }

/-- C5 witness. -/
theorem announce_udp_anonymous_c5_witness :
    c5Announce ≠ announceLog.empty ∧ c5Announce.UDP = true ∧ cFile.Verified = true ∧
    (trackerAnnounce cEnv { ID := 3 } c5Announce (fun _ => none) [1, 2, 3, 4]
        (some cFile) (some c1Prior)).savedFileUser = none :=
  ⟨by decide, rfl, rfl,
   (announce_udp_anonymous_c5 cEnv { ID := 3 } c5Announce (fun _ => none) [1, 2, 3, 4]
     cFile (some c1Prior) none (by decide) rfl rfl).2.1⟩

/-- C8: a scrape whose info-hash matches no file answers with the
"Unregistered torrent" error and creates no file row. -/
theorem scrape_unregistered_c8 (env : trackerEnv) (scrape : scrapeLog)
    (hm : scrape ≠ scrapeLog.empty) :
    (trackerScrape env scrape none).response
        = httpTrackerError env "Unregistered torrent" ∧
    (trackerScrape env scrape none).savedFile = none := by
  constructor <;> simp [trackerScrape, hm]

/-- C8 witness. -/
theorem scrape_unregistered_c8_witness :
    ({ InfoHash := "feed", IP := "1.2.3.4" } : scrapeLog) ≠ scrapeLog.empty ∧
    (trackerScrape cEnv { InfoHash := "feed", IP := "1.2.3.4" } none).savedFile = none :=
  ⟨by decide, (scrape_unregistered_c8 cEnv { InfoHash := "feed", IP := "1.2.3.4" }
    (by decide)).2⟩

/-- C7: in the successful HTTP announce response map, a record still leeching
(`completed == false`) gets an `interval` drawn from `[300, 600]` with
`min interval` 300, while a completed record gets an `interval` drawn from
`[C.Interval - 600, C.Interval]` with `min interval` `C.Interval / 2`. -/
theorem announce_interval_policy_c7 (env : trackerEnv)
    (query : String → Option String) (fileUser : fileUserRecord) :
    (fileUser.Completed = false →
      (httpTrackerAnnounceMap env query fileUser).lookup "interval"
          = some (bencode.EncInt (randRange 300 600 env.seed)) ∧
      300 ≤ randRange 300 600 env.seed ∧ randRange 300 600 env.seed ≤ 600 ∧
      (httpTrackerAnnounceMap env query fileUser).lookup "min interval"
          = some (bencode.EncInt 300)) ∧
    (fileUser.Completed = true →
      (httpTrackerAnnounceMap env query fileUser).lookup "interval"
          = some (bencode.EncInt (randRange (env.interval - 600) env.interval env.seed)) ∧
      env.interval - 600 ≤ randRange (env.interval - 600) env.interval env.seed ∧
      randRange (env.interval - 600) env.interval env.seed ≤ env.interval ∧
      (httpTrackerAnnounceMap env query fileUser).lookup "min interval"
          = some (bencode.EncInt (Int.tdiv env.interval 2))) := by
  constructor <;> intro h
  · have hb := randRange_bounds 300 600 env.seed (by omega)
    refine ⟨?_, hb.1, hb.2, ?_⟩ <;> simp [httpTrackerAnnounceMap, h, List.lookup]
  · have hb := randRange_bounds (env.interval - 600) env.interval env.seed (by omega)
    refine ⟨?_, hb.1, hb.2, ?_⟩ <;> simp [httpTrackerAnnounceMap, h, List.lookup]

/-- C7 witness. -/
theorem announce_interval_policy_c7_witness :
    c1Prior.Completed = true ∧
    (httpTrackerAnnounceMap cEnv (fun _ => none) c1Prior).lookup "min interval"
        = some (bencode.EncInt (Int.tdiv cEnv.interval 2)) :=
  ⟨rfl, ((announce_interval_policy_c7 cEnv (fun _ => none) c1Prior).2 rfl).2.2.2⟩

/-- One successful iteration of the info-hash loop: a 20-byte hash with a
nonzero first byte at the current offset is appended and the loop advances. -/
theorem scrapeCollect_step (buf : List Nat) (i fuel : Nat) (acc : List (List Nat))
    (h rest : List Nat) (hdrop : buf.drop i = h ++ rest) (hlen : h.length = 20)
    (hhead : h.head? ≠ some 0) :
    scrapeCollect buf i (fuel + 1) acc
      = scrapeCollect buf (i + 20) fuel (acc ++ [goSlice i (i + 20) buf]) := by
  obtain ⟨b, tl, rfl⟩ : ∃ b tl, h = b :: tl := by
    cases h with
    | nil => simp at hlen
    | cons b tl => exact ⟨b, tl, rfl⟩
  have hget : buf[i]? = some b := by
    have := List.getElem?_drop buf i 0
    rw [hdrop] at this
    simpa using this.symm
  have hl20 : tl.length = 19 := by simpa using hlen
  have hlenbuf : i + 20 ≤ buf.length := by
    have hd := congrArg List.length hdrop
    rw [List.length_drop] at hd
    simp at hd
    omega
  have hb : b ≠ 0 := by
    intro hb0
    exact hhead (by simp [hb0])
  rw [scrapeCollect, hget]
  simp [hb, hlenbuf]

theorem scrapeCollect_run (buf : List Nat) (hashes : List (List Nat)) :
    ∀ i acc rest, buf.drop i = hashes.flatten ++ rest →
      (∀ h ∈ hashes, h.length = 20 ∧ h.head? ≠ some 0) →
      scrapeCollect buf i hashes.length acc = (acc ++ hashes, none) := by
  induction hashes with
  | nil => intro i acc rest _ _; simp [scrapeCollect]
  | cons h t ih =>
    intro i acc rest hdrop hok
    have hh := hok h (by simp)
    have hok' : ∀ x ∈ t, x.length = 20 ∧ x.head? ≠ some 0 :=
      fun x hx => hok x (by simp [hx])
    have hdrop' : buf.drop i = h ++ (t.flatten ++ rest) := by
      simpa [List.append_assoc] using hdrop
    have hslice : goSlice i (i + 20) buf = h := by
      unfold goSlice
      rw [hdrop', Nat.add_sub_cancel_left, ← hh.1, List.take_left]
    have hnext : buf.drop (i + 20) = t.flatten ++ rest := by
      have h2 : (buf.drop i).drop 20 = t.flatten ++ rest := by
        rw [hdrop', ← hh.1, List.drop_left]
      rw [← h2, List.drop_drop, Nat.add_comm]
    rw [List.length_cons,
      scrapeCollect_step buf i t.length acc h (t.flatten ++ rest) hdrop' hh.1 hh.2,
      hslice, ih (i + 20) (acc ++ [h]) rest hnext hok']
    simp

theorem scrapeCollect_exhaust (buf : List Nat) (hashes : List (List Nat)) :
    ∀ i acc fuel, buf.drop i = hashes.flatten →
      (∀ h ∈ hashes, h.length = 20 ∧ h.head? ≠ some 0) →
      hashes.length < fuel →
      scrapeCollect buf i fuel acc = ([], some scrapeFailMsg) := by
  induction hashes with
  | nil =>
    intro i acc fuel hdrop _ hfuel
    obtain ⟨f, rfl⟩ : ∃ f, fuel = f + 1 := ⟨fuel - 1, by omega⟩
    have hget : buf[i]? = none := by
      have := List.getElem?_drop buf i 0
      rw [hdrop] at this
      simpa using this.symm
    rw [scrapeCollect, hget]
  | cons h t ih =>
    intro i acc fuel hdrop hok hfuel
    obtain ⟨f, rfl⟩ : ∃ f, fuel = f + 1 := ⟨fuel - 1, by omega⟩
    have hh := hok h (by simp)
    have hok' : ∀ x ∈ t, x.length = 20 ∧ x.head? ≠ some 0 :=
      fun x hx => hok x (by simp [hx])
    have hdrop' : buf.drop i = h ++ t.flatten := by simpa using hdrop
    have hnext : buf.drop (i + 20) = t.flatten := by
      have h2 : (buf.drop i).drop 20 = t.flatten := by
        rw [hdrop', ← hh.1, List.drop_left]
      rw [← h2, List.drop_drop, Nat.add_comm]
    rw [scrapeCollect_step buf i f acc h t.flatten hdrop' hh.1 hh.2,
      ih (i + 20) (acc ++ [goSlice i (i + 20) buf]) f hnext hok' (by simp at hfuel; omega)]

theorem scrapeCollect_zstop (buf : List Nat) (hashes : List (List Nat)) :
    ∀ i acc fuel rest, buf.drop i = hashes.flatten ++ 0 :: rest →
      (∀ h ∈ hashes, h.length = 20 ∧ h.head? ≠ some 0) →
      hashes.length < fuel →
      scrapeCollect buf i fuel acc = (acc ++ hashes, none) := by
  induction hashes with
  | nil =>
    intro i acc fuel rest hdrop _ hfuel
    obtain ⟨f, rfl⟩ : ∃ f, fuel = f + 1 := ⟨fuel - 1, by omega⟩
    have hget : buf[i]? = some 0 := by
      have := List.getElem?_drop buf i 0
      rw [hdrop] at this
      simpa using this.symm
    rw [scrapeCollect, hget]
    simp
  | cons h t ih =>
    intro i acc fuel rest hdrop hok hfuel
    obtain ⟨f, rfl⟩ : ∃ f, fuel = f + 1 := ⟨fuel - 1, by omega⟩
    have hh := hok h (by simp)
    have hok' : ∀ x ∈ t, x.length = 20 ∧ x.head? ≠ some 0 :=
      fun x hx => hok x (by simp [hx])
    have hdrop' : buf.drop i = h ++ (t.flatten ++ 0 :: rest) := by
      simpa [List.append_assoc] using hdrop
    have hslice : goSlice i (i + 20) buf = h := by
      unfold goSlice
      rw [hdrop', Nat.add_sub_cancel_left, ← hh.1, List.take_left]
    have hnext : buf.drop (i + 20) = t.flatten ++ 0 :: rest := by
      have h2 : (buf.drop i).drop 20 = t.flatten ++ 0 :: rest := by
        rw [hdrop', ← hh.1, List.drop_left]
      rw [← h2, List.drop_drop, Nat.add_comm]
    rw [scrapeCollect_step buf i f acc h (t.flatten ++ 0 :: rest) hdrop' hh.1 hh.2,
      hslice, ih (i + 20) (acc ++ [h]) f rest hnext hok' (by simp at hfuel; omega)]
    simp

/-- C10: the info-hash loop of `udpScrapePacket.FromBytes` stops only at a
0x00 lead byte or at the end of the 70-slot window: a buffer of exactly
`16 + 20·K` bytes (`K < 70`) of well-formed hashes runs past the end and
yields the recovered parse error with an empty packet, while a hash whose
first byte is 0x00 ends the collection, dropping it and everything after. -/
theorem scrape_zero_sentinel_c10 :
    (∀ (hdr : List Nat) (hashes : List (List Nat)),
      hdr.length = 16 → hashes.length < 70 →
      (∀ h ∈ hashes, h.length = 20 ∧ h.head? ≠ some 0) →
      udpScrapePacket.FromBytes (hdr ++ hashes.flatten)
        = ({ InfoHashes := [] }, some scrapeFailMsg)) ∧
    (∀ (hdr rest : List Nat) (hashes : List (List Nat)),
      hdr.length = 16 → hashes.length < 70 →
      (∀ h ∈ hashes, h.length = 20 ∧ h.head? ≠ some 0) →
      udpScrapePacket.FromBytes (hdr ++ hashes.flatten ++ 0 :: rest)
        = ({ InfoHashes := hashes }, none)) := by
  constructor
  · intro hdr hashes h16 h70 hok
    have hdrop : (hdr ++ hashes.flatten).drop 16 = hashes.flatten := by
      rw [← h16, List.drop_left]
    simp only [udpScrapePacket.FromBytes]
    rw [scrapeCollect_exhaust _ hashes 16 [] 70 hdrop hok h70]
  · intro hdr rest hashes h16 h70 hok
    have hdrop : (hdr ++ hashes.flatten ++ 0 :: rest).drop 16
        = hashes.flatten ++ 0 :: rest := by
      rw [List.append_assoc, ← h16, List.drop_left]
    simp only [udpScrapePacket.FromBytes]
    rw [scrapeCollect_zstop _ hashes 16 [] 70 rest hdrop hok h70]
    simp

/-- C10 witness. -/
theorem scrape_zero_sentinel_c10_witness :
    ((List.replicate 16 8 : List Nat).length = 16 ∧
     ([1 :: List.replicate 19 1] : List (List Nat)).length < 70) ∧
    udpScrapePacket.FromBytes (List.replicate 16 8 ++ ([1 :: List.replicate 19 1] : List (List Nat)).flatten)
      = ({ InfoHashes := [] }, some scrapeFailMsg) ∧
    udpScrapePacket.FromBytes (List.replicate 16 8 ++ ([1 :: List.replicate 19 1] : List (List Nat)).flatten ++ 0 :: [])
      = ({ InfoHashes := [1 :: List.replicate 19 1] }, none) :=
  ⟨⟨by decide, by decide⟩,
   scrape_zero_sentinel_c10.1 (List.replicate 16 8) [1 :: List.replicate 19 1]
     (by decide) (by decide) (by decide),
   scrape_zero_sentinel_c10.2 (List.replicate 16 8) [] [1 :: List.replicate 19 1]
     (by decide) (by decide) (by decide)⟩

/-- C9 (amended): a UDP scrape packet carrying more than 70 info-hashes, none
of the first 70 beginning with a 0x00 byte, parses to exactly the first 70
hashes in order; `rest` holds the bytes of the 71st hash onward. -/
theorem scrape_first70_c9 (hdr : List Nat) (hashes : List (List Nat)) (rest : List Nat)
    (hhdr : hdr.length = 16) (hlen : hashes.length = 70)
    (hok : ∀ h ∈ hashes, h.length = 20 ∧ h.head? ≠ some 0) :
    udpScrapePacket.FromBytes (hdr ++ hashes.flatten ++ rest)
      = ({ InfoHashes := hashes }, none) := by
  have hdrop : (hdr ++ hashes.flatten ++ rest).drop 16 = hashes.flatten ++ rest := by
    rw [List.append_assoc, ← hhdr, List.drop_left]
  simp only [udpScrapePacket.FromBytes]
  rw [← hlen, scrapeCollect_run _ hashes 16 [] rest hdrop hok]
  simp

/-- 71 well-formed 20-byte hashes, the second one starting with a 0x00 byte. -/
def c9Hashes : List (List Nat) :=
  (1 :: List.replicate 19 1) :: List.replicate 70 (0 :: List.replicate 19 1)

/-- A scrape packet of exactly `16 + 20·71` bytes built from `c9Hashes`. -/
def c9Buf : List Nat := List.replicate 16 8 ++ c9Hashes.flatten

set_option maxRecDepth 100000 in
/-- C9 counterexample: `c9Buf` carries 71 twenty-byte info-hashes, yet parsing
returns a single hash, not the first 70 — the second hash's 0x00 lead byte
ends the collection early. -/
theorem scrape_first70_c9_counterexample :
    c9Hashes.length = 71 ∧ (∀ h ∈ c9Hashes, h.length = 20) ∧
    (udpScrapePacket.FromBytes c9Buf).2 = none ∧
    (udpScrapePacket.FromBytes c9Buf).1.InfoHashes.length = 1 ∧
    (udpScrapePacket.FromBytes c9Buf).1.InfoHashes ≠ c9Hashes.take 70 := by
  decide

/-- 70 well-formed hashes with nonzero lead bytes. -/
def c9GoodHashes : List (List Nat) := List.replicate 70 (1 :: List.replicate 19 1)

/-- C9 witness. -/
theorem scrape_first70_c9_witness :
    (List.replicate 16 8 : List Nat).length = 16 ∧ c9GoodHashes.length = 70 ∧
    (∀ h ∈ c9GoodHashes, h.length = 20 ∧ h.head? ≠ some 0) ∧
    udpScrapePacket.FromBytes
        (List.replicate 16 8 ++ c9GoodHashes.flatten ++ (2 :: List.replicate 19 2))
      = ({ InfoHashes := c9GoodHashes }, none) :=
  ⟨by decide, by decide, by decide,
   scrape_first70_c9 (List.replicate 16 8) c9GoodHashes (2 :: List.replicate 19 2)
     (by decide) (by decide) (by decide)⟩

/-- Case analysis of the announce parse: the result is a success, the
recovered bounds error (possible only on a buffer shorter than 98 bytes), or
the integer-range error on the zero packet. -/
theorem udpAnnounce_FromBytes_cases (buf : List Nat) (p : udpAnnouncePacket)
    (e : Option String) (h : udpAnnouncePacket.FromBytes buf = (p, e)) :
    e = none ∨
    (p = udpAnnouncePacket.zero
      ∧ e = some "failed to create udpAnnouncePacket from bytes"
      ∧ buf.length < 98) ∨
    (p = udpAnnouncePacket.zero ∧ e = some errUDPInteger) := by
  unfold udpAnnouncePacket.FromBytes at h
  by_cases h1 : buf.length < 64
  case pos =>
    rw [if_pos h1, Prod.mk.injEq] at h
    exact Or.inr (Or.inl ⟨h.1.symm, h.2.symm, by omega⟩)
  rw [if_neg h1] at h
  by_cases h2 : 2 ^ 63 ≤ beNat (goSlice 56 64 buf)
  case pos =>
    rw [if_pos h2, Prod.mk.injEq] at h
    exact Or.inr (Or.inr ⟨h.1.symm, h.2.symm⟩)
  rw [if_neg h2] at h
  by_cases h3 : buf.length < 72
  case pos =>
    rw [if_pos h3, Prod.mk.injEq] at h
    exact Or.inr (Or.inl ⟨h.1.symm, h.2.symm, by omega⟩)
  rw [if_neg h3] at h
  by_cases h4 : 2 ^ 63 ≤ beNat (goSlice 64 72 buf)
  case pos =>
    rw [if_pos h4, Prod.mk.injEq] at h
    exact Or.inr (Or.inr ⟨h.1.symm, h.2.symm⟩)
  rw [if_neg h4] at h
  by_cases h5 : buf.length < 80
  case pos =>
    rw [if_pos h5, Prod.mk.injEq] at h
    exact Or.inr (Or.inl ⟨h.1.symm, h.2.symm, by omega⟩)
  rw [if_neg h5] at h
  by_cases h6 : 2 ^ 63 ≤ beNat (goSlice 72 80 buf)
  case pos =>
    rw [if_pos h6, Prod.mk.injEq] at h
    exact Or.inr (Or.inr ⟨h.1.symm, h.2.symm⟩)
  rw [if_neg h6] at h
  by_cases h7 : buf.length < 84
  case pos =>
    rw [if_pos h7, Prod.mk.injEq] at h
    exact Or.inr (Or.inl ⟨h.1.symm, h.2.symm, by omega⟩)
  rw [if_neg h7] at h
  by_cases h8 : 2 ^ 31 ≤ beNat (goSlice 80 84 buf)
  case pos =>
    rw [if_pos h8, Prod.mk.injEq] at h
    exact Or.inr (Or.inr ⟨h.1.symm, h.2.symm⟩)
  rw [if_neg h8] at h
  by_cases h9 : buf.length < 88
  case pos =>
    rw [if_pos h9, Prod.mk.injEq] at h
    exact Or.inr (Or.inl ⟨h.1.symm, h.2.symm, by omega⟩)
  rw [if_neg h9] at h
  by_cases h10 : 2 ^ 31 ≤ beNat (goSlice 84 88 buf)
  case pos =>
    rw [if_pos h10, Prod.mk.injEq] at h
    exact Or.inr (Or.inr ⟨h.1.symm, h.2.symm⟩)
  rw [if_neg h10] at h
  by_cases h11 : buf.length < 96
  case pos =>
    rw [if_pos h11, Prod.mk.injEq] at h
    exact Or.inr (Or.inl ⟨h.1.symm, h.2.symm, by omega⟩)
  rw [if_neg h11] at h
  by_cases h12 : goSlice 92 96 buf ≠ [255, 255, 255, 255] ∧ 2 ^ 31 ≤ beNat (goSlice 92 96 buf)
  case pos =>
    rw [if_pos h12, Prod.mk.injEq] at h
    exact Or.inr (Or.inr ⟨h.1.symm, h.2.symm⟩)
  rw [if_neg h12] at h
  by_cases h13 : buf.length < 98
  case pos =>
    rw [if_pos h13, Prod.mk.injEq] at h
    exact Or.inr (Or.inl ⟨h.1.symm, h.2.symm, by omega⟩)
  rw [if_neg h13] at h
  rw [Prod.mk.injEq] at h
  exact Or.inl h.2.symm

/-- C6 (amended): each UDP parse routine is total in the model and an access
past the end of the buffer yields the recovered typed parse error together
with the zero-value packet — never a crash; for the announce packet the
recover error occurs only on buffers shorter than 98 bytes (in-bounds range
failures yield `errUDPInteger` instead), and the error value itself does not
carry the transaction id. -/
theorem udp_parse_bounds_c6 (buf : List Nat) :
    (buf.length < 16 →
      udpPacket.FromBytes buf
        = (udpPacket.zero, some "failed to create udpPacket from bytes")) ∧
    (buf.length < 64 →
      udpAnnouncePacket.FromBytes buf
        = (udpAnnouncePacket.zero, some "failed to create udpAnnouncePacket from bytes")) ∧
    ((udpAnnouncePacket.FromBytes buf).2
        = some "failed to create udpAnnouncePacket from bytes" → buf.length < 98) ∧
    (buf.length ≤ 16 →
      udpScrapePacket.FromBytes buf = ({ InfoHashes := [] }, some scrapeFailMsg)) ∧
    (buf.length < 20 →
      udpAnnounceResponsePacket.FromBytes buf
        = (udpAnnounceResponsePacket.zero,
           some "failed to create udpAnnounceResponsePacket from bytes")) ∧
    ((udpPacket.FromBytes buf).2.isSome → (udpPacket.FromBytes buf).1 = udpPacket.zero) ∧
    ((udpAnnouncePacket.FromBytes buf).2.isSome →
      (udpAnnouncePacket.FromBytes buf).1 = udpAnnouncePacket.zero) ∧
    ((udpScrapePacket.FromBytes buf).2.isSome →
      (udpScrapePacket.FromBytes buf).1 = { InfoHashes := [] }) ∧
    ((udpAnnounceResponsePacket.FromBytes buf).2.isSome →
      (udpAnnounceResponsePacket.FromBytes buf).1 = udpAnnounceResponsePacket.zero) := by
  refine ⟨?_, ?_, ?_, ?_, ?_, ?_, ?_, ?_, ?_⟩
  · intro h; simp [udpPacket.FromBytes, h]
  · intro h
    unfold udpAnnouncePacket.FromBytes
    rw [if_pos h]
  · intro hr
    rcases hfb : udpAnnouncePacket.FromBytes buf with ⟨p, e⟩
    rw [hfb] at hr
    dsimp only at hr
    rcases udpAnnounce_FromBytes_cases buf p e hfb with h0 | ⟨_, _, hl⟩ | ⟨_, he⟩
    · rw [h0] at hr
      exact Option.noConfusion hr
    · exact hl
    · rw [he] at hr
      exact absurd hr (by decide)
  · intro h
    have hdrop : buf.drop 16 = ([] : List (List Nat)).flatten :=
      by simpa using List.drop_eq_nil_of_le h
    simp only [udpScrapePacket.FromBytes]
    rw [scrapeCollect_exhaust _ [] 16 [] 70 hdrop (by simp) (by norm_num)]
  · intro h; simp [udpAnnounceResponsePacket.FromBytes, h]
  · unfold udpPacket.FromBytes; split <;> simp
  · intro hs
    rcases hfb : udpAnnouncePacket.FromBytes buf with ⟨p, e⟩
    rw [hfb] at hs
    dsimp only at hs
    rcases udpAnnounce_FromBytes_cases buf p e hfb with h0 | ⟨hp, _, _⟩ | ⟨hp, _⟩
    · rw [h0] at hs
      exact absurd hs (by decide)
    · exact hp
    · exact hp
  · simp only [udpScrapePacket.FromBytes]
    rcases hs : scrapeCollect buf 16 70 [] with ⟨hsl, e⟩
    cases e <;> simp
  · simp only [udpAnnounceResponsePacket.FromBytes]
    split
    · simp
    · rcases hr : respPeersLoop buf 20 with ⟨ps, e⟩
      cases e <;> simp [hr]

/-- A truncated UDP announce packet with transaction id `[1, 2, 3, 4]`. -/
def c6BufA : List Nat := List.replicate 12 0 ++ [1, 2, 3, 4] ++ [0, 0, 0, 0]

/-- The same truncated packet with transaction id `[5, 6, 7, 8]`. -/
def c6BufB : List Nat := List.replicate 12 0 ++ [5, 6, 7, 8] ++ [0, 0, 0, 0]

/-- C6 counterexample: two truncated announce packets differing only in their
transaction-id bytes (offsets 12–16) parse to the very same constant error
value, so the typed parse error cannot be carrying the transaction id. -/
theorem udp_parse_error_no_transid_c6 :
    goSlice 12 16 c6BufA = [1, 2, 3, 4] ∧ goSlice 12 16 c6BufB = [5, 6, 7, 8] ∧
    c6BufA.length < 98 ∧ c6BufB.length < 98 ∧
    udpAnnouncePacket.FromBytes c6BufA = udpAnnouncePacket.FromBytes c6BufB ∧
    (udpAnnouncePacket.FromBytes c6BufA).2
      = some "failed to create udpAnnouncePacket from bytes" := by
  decide

/-- C6 witness. -/
theorem udp_parse_bounds_c6_witness :
    ([1, 2, 3] : List Nat).length < 16 ∧
    udpPacket.FromBytes [1, 2, 3]
      = (udpPacket.zero, some "failed to create udpPacket from bytes") ∧
    udpAnnouncePacket.FromBytes [1, 2, 3]
      = (udpAnnouncePacket.zero, some "failed to create udpAnnouncePacket from bytes") ∧
    ([1, 2, 3] : List Nat).length < 98 ∧
    udpScrapePacket.FromBytes [1, 2, 3] = ({ InfoHashes := [] }, some scrapeFailMsg) ∧
    udpAnnounceResponsePacket.FromBytes [1, 2, 3]
      = (udpAnnounceResponsePacket.zero,
         some "failed to create udpAnnounceResponsePacket from bytes") ∧
    (udpPacket.FromBytes [1, 2, 3]).1 = udpPacket.zero :=
  ⟨by decide, (udp_parse_bounds_c6 [1, 2, 3]).1 (by decide),
   (udp_parse_bounds_c6 [1, 2, 3]).2.1 (by decide),
   (udp_parse_bounds_c6 [1, 2, 3]).2.2.1 (by decide),
   (udp_parse_bounds_c6 [1, 2, 3]).2.2.2.1 (by decide),
   (udp_parse_bounds_c6 [1, 2, 3]).2.2.2.2.1 (by decide),
   (udp_parse_bounds_c6 [1, 2, 3]).2.2.2.2.2.1 (by decide)⟩
